import Mathlib

/-
Verification of the ticket-store and ticket-lifecycle-controller logic of the
Aether_Tickets repository (`src/database.py`, `src/bot.py`,
`src/commands/ticket.py`).

The SQLite-backed `TicketDatabase` class is embedded as a pure state: the
`tickets` table is a list of `Ticket` records (rows, in insertion order) plus
the AUTOINCREMENT counter for `ticket_id`, and the `guild_config` table a list
of `GuildConfig` records.  ISO-8601 timestamp strings compare exactly like the
instants they denote, so timestamps are embedded as `Int` and the SQL `>=` on
`created_at` strings as `≤` on `Int`.  SQL text values that may be NULL are
`Option`s.  Each method of the class becomes a pure function from the state
(plus the current time, for methods that call `datetime.utcnow()`) to its
return value and the new state.

SQLite semantics that matter here and are embedded faithfully:
  * `channel_id TEXT UNIQUE NOT NULL`: an INSERT with a duplicate channel_id
    raises `sqlite3.IntegrityError`, which `create_ticket` does not catch, so
    the embedded `create_ticket` returns `none` in that case.
  * `cursor.rowcount` after an UPDATE counts the rows matched by the WHERE
    clause (a row counts even when the new values equal the old ones).
  * AUTOINCREMENT ids start at 1 and are never reused.
-/

namespace AetherTickets

/-- A row of the `tickets` table (schema in `init_database`, database.py). -/
structure Ticket where
  ticket_id : Nat
  channel_id : String
  user_id : String
  created_at : Int
  closed_at : Option Int
  status : String
  claimed_by : Option String
  claimed_at : Option Int
  close_reason : Option String
deriving DecidableEq

/-- A row of the `guild_config` table (schema in `init_guild_config_table`). -/
structure GuildConfig where
  guild_id : String
  panel_channel_id : String
  support_role_id : Option String
  ticket_category_id : Option String
  ping_role_id : Option String
  panel_title : Option String
  panel_description : Option String
  updated_at : Int
deriving DecidableEq

/-- The persistent state owned by the `TicketDatabase` class: the two tables
plus the AUTOINCREMENT counter backing `ticket_id`. -/
structure TicketDatabase where
  tickets : List Ticket
  guild_config : List GuildConfig
  next_id : Nat
deriving DecidableEq

/-- The state of a freshly initialised database (`init_database` on a new
file): both tables empty, AUTOINCREMENT starting at 1. -/
def initDatabase : TicketDatabase :=
  { tickets := [], guild_config := [], next_id := 1 }

/-- `get_ticket_by_channel` (database.py:214): `SELECT * FROM tickets WHERE
channel_id = ?` followed by `fetchone`, i.e. the first matching row. -/
def get_ticket_by_channel (db : TicketDatabase) (channel_id : String) :
    Option Ticket :=
  db.tickets.find? (fun t => t.channel_id == channel_id)

/-- The row the INSERT of `create_ticket` writes: the given columns plus the
schema defaults (status 'open', every other column NULL). -/
def newTicket (tid : Nat) (channel_id user_id : String) (now : Int) : Ticket :=
  { ticket_id := tid, channel_id := channel_id, user_id := user_id,
    created_at := now, closed_at := none, status := "open",
    claimed_by := none, claimed_at := none, close_reason := none }

/-- `create_ticket` (database.py:161): `INSERT INTO tickets (channel_id,
user_id, created_at, status) VALUES (?, ?, ?, 'open')`, returning
`cursor.lastrowid`.  The schema declares `channel_id TEXT UNIQUE`, so the
INSERT raises `sqlite3.IntegrityError` (uncaught, embedded as `none`) when a
row with that channel_id already exists; otherwise the new row is appended
with the next AUTOINCREMENT id. -/
def create_ticket (db : TicketDatabase) (channel_id user_id : String)
    (now : Int) : Option (Nat × TicketDatabase) :=
  if db.tickets.any (fun t => t.channel_id == channel_id) then
    none
  else
    some (db.next_id,
      { db with
        tickets := db.tickets ++ [newTicket db.next_id channel_id user_id now],
        next_id := db.next_id + 1 })

/-- The WHERE clause of `close_ticket`: `channel_id = ? AND status = 'open'`. -/
def closeCond (channel_id : String) (t : Ticket) : Bool :=
  t.channel_id == channel_id && t.status == "open"

/-- The row-level effect of the UPDATE in `close_ticket` (set the three close
fields on matched rows, leave the rest alone). -/
def closeUpd (channel_id : String) (reason : Option String) (now : Int)
    (t : Ticket) : Ticket :=
  if closeCond channel_id t then
    { t with status := "closed", closed_at := some now, close_reason := reason }
  else t

/-- `close_ticket` (database.py:187): `UPDATE tickets SET status = 'closed',
closed_at = ?, close_reason = ? WHERE channel_id = ? AND status = 'open'`,
returning `cursor.rowcount > 0`. -/
def close_ticket (db : TicketDatabase) (channel_id : String)
    (reason : Option String) (now : Int) : Bool × TicketDatabase :=
  (db.tickets.any (closeCond channel_id),
   { db with tickets := db.tickets.map (closeUpd channel_id reason now) })

/-- `get_user_tickets` (database.py:237): rows with this user_id, optionally
filtered by status.  The source orders the result by `created_at DESC`; only
the set of rows matters to the properties below, so the embedding keeps the
table order. -/
def get_user_tickets (db : TicketDatabase) (user_id : String)
    (status : Option String) : List Ticket :=
  match status with
  | some s => db.tickets.filter (fun t => t.user_id == user_id && t.status == s)
  | none => db.tickets.filter (fun t => t.user_id == user_id)

/-- `is_ticket_channel` (database.py:268). -/
def is_ticket_channel (db : TicketDatabase) (channel_id : String) : Bool :=
  (get_ticket_by_channel db channel_id).isSome

/-- Python truthiness of `ticket.get('claimed_by')` in the pre-check of
`claim_ticket`: `None` and the empty string are falsy. -/
def claimedByTruthy : Option String → Bool
  | none => false
  | some s => s != ""

/-- The WHERE clause of the UPDATE in `claim_ticket`:
`channel_id = ? AND status = 'open' AND claimed_by IS NULL`. -/
def claimCond (channel_id : String) (t : Ticket) : Bool :=
  t.channel_id == channel_id && t.status == "open" && t.claimed_by.isNone

/-- The row-level effect of the UPDATE in `claim_ticket`. -/
def claimUpd (channel_id user_id : String) (now : Int) (t : Ticket) : Ticket :=
  if claimCond channel_id t then
    { t with claimed_by := some user_id, claimed_at := some now }
  else t

/-- `claim_ticket` (database.py:280): first a fetch-then-check via
`get_ticket_by_channel` (returns False when the ticket is missing, not open,
or `ticket.get('claimed_by')` is truthy), then the conditional `UPDATE tickets
SET claimed_by = ?, claimed_at = ? WHERE channel_id = ? AND status = 'open'
AND claimed_by IS NULL`, returning `cursor.rowcount > 0`. -/
def claim_ticket (db : TicketDatabase) (channel_id user_id : String)
    (now : Int) : Bool × TicketDatabase :=
  match get_ticket_by_channel db channel_id with
  | none => (false, db)
  | some t =>
    if t.status != "open" || claimedByTruthy t.claimed_by then
      (false, db)
    else
      (db.tickets.any (claimCond channel_id),
       { db with tickets := db.tickets.map (claimUpd channel_id user_id now) })

/-- The row-level effect of the UPDATE in `unclaim_ticket`; its WHERE clause is
the same `channel_id = ? AND status = 'open'` as in `close_ticket`. -/
def unclaimUpd (channel_id : String) (t : Ticket) : Ticket :=
  if closeCond channel_id t then
    { t with claimed_by := none, claimed_at := none }
  else t

/-- `unclaim_ticket` (database.py:313): `UPDATE tickets SET claimed_by = NULL,
claimed_at = NULL WHERE channel_id = ? AND status = 'open'`, returning
`cursor.rowcount > 0`.  The WHERE clause does not test `claimed_by`, and
SQLite's rowcount counts every matched row, so an open but unclaimed ticket
still yields rowcount 1. -/
def unclaim_ticket (db : TicketDatabase) (channel_id : String) :
    Bool × TicketDatabase :=
  (db.tickets.any (closeCond channel_id),
   { db with tickets := db.tickets.map (unclaimUpd channel_id) })

/-- Result record of `get_ticket_statistics`, with the source's local variable
names (`total`, `open_count`, `closed_count`, `claimed_count`,
`unclaimed_count`). -/
structure TicketStatistics where
  total : Nat
  open_count : Nat
  closed_count : Nat
  claimed_count : Nat
  unclaimed_count : Nat
deriving DecidableEq

/-- `get_ticket_statistics` (database.py:360): five COUNT(*) queries over the
`tickets` table. -/
def get_ticket_statistics (db : TicketDatabase) : TicketStatistics :=
  { total := db.tickets.length,
    open_count := (db.tickets.filter (fun t => t.status == "open")).length,
    closed_count := (db.tickets.filter (fun t => t.status == "closed")).length,
    claimed_count := (db.tickets.filter
      (fun t => t.status == "open" && t.claimed_by.isSome)).length,
    unclaimed_count := (db.tickets.filter
      (fun t => t.status == "open" && t.claimed_by.isNone)).length }

/-- Result record of `get_tickets_by_period`. -/
structure PeriodStatistics where
  total : Nat
  open_count : Nat
  closed_count : Nat
deriving DecidableEq

/-- `get_tickets_by_period` (database.py:399): cutoff is
`utcnow() - timedelta(days=days)` and the three COUNT(*) queries filter on
`created_at >= cutoff` (ISO strings compare chronologically).  Time is
measured in days here so that the cutoff is `now - days`. -/
def get_tickets_by_period (db : TicketDatabase) (days : Int) (now : Int) :
    PeriodStatistics :=
  let cutoff : Int := now - days
  { total := (db.tickets.filter
      (fun t => decide (cutoff ≤ t.created_at))).length,
    open_count := (db.tickets.filter
      (fun t => decide (cutoff ≤ t.created_at) && t.status == "open")).length,
    closed_count := (db.tickets.filter
      (fun t => decide (cutoff ≤ t.created_at) && t.status == "closed")).length }

/-- `save_guild_config` (database.py:81): `INSERT OR REPLACE INTO guild_config`
keyed by guild_id — a full-record upsert.  It never touches the `tickets`
table. -/
def save_guild_config (db : TicketDatabase) (cfg : GuildConfig) :
    TicketDatabase :=
  { db with
    guild_config :=
      cfg :: db.guild_config.filter (fun g => g.guild_id != cfg.guild_id) }

/-- `delete_guild_config` (database.py:139): `DELETE FROM guild_config WHERE
guild_id = ?`, returning `cursor.rowcount > 0`.  It never touches the
`tickets` table. -/
def delete_guild_config (db : TicketDatabase) (guild_id : String) :
    Bool × TicketDatabase :=
  (db.guild_config.any (fun g => g.guild_id == guild_id),
   { db with
     guild_config := db.guild_config.filter (fun g => g.guild_id != guild_id) })

/-- A mutating store operation, with its arguments.  The remaining methods of
`TicketDatabase` are pure SELECTs and leave the state unchanged. -/
inductive StoreOp where
  | create (channel_id user_id : String) (now : Int)
  | close (channel_id : String) (reason : Option String) (now : Int)
  | claim (channel_id user_id : String) (now : Int)
  | unclaim (channel_id : String)
  | saveConfig (cfg : GuildConfig)
  | deleteConfig (guild_id : String)
deriving DecidableEq

/-- The state reached by running one store operation (for `create`, a failed
INSERT leaves the state unchanged because the transaction is never
committed). -/
def applyOp (op : StoreOp) (db : TicketDatabase) : TicketDatabase :=
  match op with
  | .create c u n =>
    match create_ticket db c u n with
    | none => db
    | some (_, db') => db'
  | .close c r n => (close_ticket db c r n).2
  | .claim c u n => (claim_ticket db c u n).2
  | .unclaim c => (unclaim_ticket db c).2
  | .saveConfig cfg => save_guild_config db cfg
  | .deleteConfig g => (delete_guild_config db g).2

/-- States reachable from a fresh database by the store's own operations. -/
inductive Reachable : TicketDatabase → Prop where
  | init : Reachable initDatabase
  | step (op : StoreOp) (db : TicketDatabase) :
      Reachable db → Reachable (applyOp op db)

/-- Every row's status is one of the two enum values the store ever writes. -/
def WFStatus (db : TicketDatabase) : Prop :=
  ∀ t ∈ db.tickets, t.status = "open" ∨ t.status = "closed"

/-- The schema invariant `channel_id TEXT UNIQUE`: distinct rows carry
distinct channel ids. -/
def UniqueChannels (db : TicketDatabase) : Prop :=
  db.tickets.Pairwise (fun a b => a.channel_id ≠ b.channel_id)

/-- Outcome of the Controller's create flow, as seen by the store and the
requester. -/
inductive CreateResult where
  | alreadyOpen
  | noGuild
  | provisionFailed
  | storeError
  | created (ticket_id : Nat)
deriving DecidableEq

/-- The Controller's create flow (`TicketBot.handle_ticket_button`, bot.py:113,
and identically `TicketCommands.create_ticket`, commands/ticket.py:46), keeping
exactly the store-relevant steps in source order: (1) refuse when
`get_user_tickets(user, 'open')` is non-empty; (2) refuse outside a guild;
(3) `guild.create_text_channel` — embedded as the `provisioned` argument,
`none` meaning the platform call raised (e.g. `discord.Forbidden`), `some ch`
meaning a channel with id `ch` was created; (4) only then the store write
`create_ticket`.  Message sending is presentation and touches no store
state. -/
def handle_ticket_button (db : TicketDatabase) (user_id : String)
    (in_guild : Bool) (provisioned : Option String) (now : Int) :
    CreateResult × TicketDatabase :=
  if !(get_user_tickets db user_id (some "open")).isEmpty then
    (.alreadyOpen, db)
  else if !in_guild then
    (.noGuild, db)
  else
    match provisioned with
    | none => (.provisionFailed, db)
    | some channel_id =>
      match create_ticket db channel_id user_id now with
      | none => (.storeError, db)
      | some (tid, db') => (.created tid, db')

/-- A sequence of `close_ticket` calls on one channel: the list of results and
the final state. -/
def run_closes (db : TicketDatabase) (channel_id : String) :
    List (Option String × Int) → List Bool × TicketDatabase
  | [] => ([], db)
  | (reason, now) :: rest =>
    let step := close_ticket db channel_id reason now
    let tail := run_closes step.2 channel_id rest
    (step.1 :: tail.1, tail.2)

/-- A sequence of `claim_ticket` calls on one channel: the list of results and
the final state. -/
def run_claims (db : TicketDatabase) (channel_id : String) :
    List (String × Int) → List Bool × TicketDatabase
  | [] => ([], db)
  | (user_id, now) :: rest =>
    let step := claim_ticket db channel_id user_id now
    let tail := run_claims step.2 channel_id rest
    (step.1 :: tail.1, tail.2)

/-- A concrete open, unclaimed ticket (concrete states are used to instantiate
the general theorems below). -/
def sampleOpen : Ticket :=
  { ticket_id := 1, channel_id := "c1", user_id := "u1", created_at := 0,
    closed_at := none, status := "open", claimed_by := none,
    claimed_at := none, close_reason := none }

/-- The closed form of `sampleOpen` (closed at time 7, no reason). -/
def sampleClosed : Ticket :=
  { sampleOpen with status := "closed", closed_at := some 7 }

/-- The claimed form of `sampleOpen` (claimed by staffer s1 at time 3). -/
def sampleClaimed : Ticket :=
  { sampleOpen with claimed_by := some "s1", claimed_at := some 3 }

/-- A store holding exactly one open, unclaimed ticket. -/
def dbOpen : TicketDatabase :=
  { tickets := [sampleOpen], guild_config := [], next_id := 2 }

/-- A store holding exactly one closed ticket. -/
def dbClosed : TicketDatabase :=
  { tickets := [sampleClosed], guild_config := [], next_id := 2 }

/-- A store holding exactly one open, claimed ticket. -/
def dbClaimed : TicketDatabase :=
  { tickets := [sampleClaimed], guild_config := [], next_id := 2 }

/-- The store after creating one ticket (channel old, time 0) from fresh. -/
def dbPeriod1 : TicketDatabase :=
  { tickets := [newTicket 1 "old" "u1" 0], guild_config := [], next_id := 2 }

/-- The store after additionally creating a second ticket (channel new,
time 2, i.e. two days after the first). -/
def dbPeriod2 : TicketDatabase :=
  { tickets := [newTicket 1 "old" "u1" 0, newTicket 2 "new" "u2" 2],
    guild_config := [], next_id := 3 }

section Helpers

/-- `closeUpd` never produces a row matching the close WHERE clause again. -/
theorem closeCond_closeUpd (c : String) (r : Option String) (n : Int)
    (t : Ticket) : closeCond c (closeUpd c r n t) = false := by
  have hco : (("closed" : String) == "open") = false := by decide
  by_cases h : closeCond c t = true
  · rw [closeUpd, if_pos h]
    simp [closeCond, hco]
  · rw [closeUpd, if_neg h]
    simpa using h

/-- After any `close_ticket` call on a channel, no row matches the close WHERE
clause for that channel. -/
theorem any_closeCond_after_close (db : TicketDatabase) (c : String)
    (r : Option String) (n : Int) :
    ((close_ticket db c r n).2).tickets.any (closeCond c) = false := by
  simp only [close_ticket, List.any_map]
  rw [List.any_eq_false]
  intro t _
  simp [Function.comp, closeCond_closeUpd]

/-- Rebuilding a state from its own tickets list is the identity. -/
theorem ticketdb_eta (db : TicketDatabase) (l : List Ticket)
    (h : l = db.tickets) :
    ({ db with tickets := l } : TicketDatabase) = db := by
  cases db
  simpa using h

/-- If no row matches the close WHERE clause, `close_ticket` returns false and
leaves the state unchanged. -/
theorem close_ticket_of_no_open (db : TicketDatabase) (c : String)
    (r : Option String) (n : Int)
    (h : db.tickets.any (closeCond c) = false) :
    close_ticket db c r n = (false, db) := by
  have hmap : db.tickets.map (closeUpd c r n) = db.tickets := by
    rw [List.any_eq_false] at h
    have hid : ∀ t ∈ db.tickets, closeUpd c r n t = id t := by
      intro t ht
      have ht' := h t ht
      simp only [Bool.not_eq_true] at ht'
      simp [closeUpd, ht']
    rw [List.map_congr_left hid, List.map_id]
  show (db.tickets.any (closeCond c),
    ({ db with tickets := db.tickets.map (closeUpd c r n) } : TicketDatabase))
    = (false, db)
  rw [h, hmap, ticketdb_eta db db.tickets rfl]

/-- Closed rows are left verbatim by `close_ticket`. -/
theorem close_preserves_closed_mem (db : TicketDatabase) (c : String)
    (r : Option String) (n : Int) (t : Ticket) (ht : t ∈ db.tickets)
    (hc : t.status = "closed") :
    t ∈ ((close_ticket db c r n).2).tickets := by
  have hfix : closeUpd c r n t = t := by
    have : closeCond c t = false := by
      simp [closeCond, hc]
    simp [closeUpd, this]
  simpa only [close_ticket, hfix] using
    (hfix ▸ List.mem_map_of_mem (closeUpd c r n) ht)

/-- On a state with no open row for the channel, every close in a sequence
fails and the state never moves. -/
theorem run_closes_of_no_open (db : TicketDatabase) (c : String)
    (calls : List (Option String × Int))
    (h : db.tickets.any (closeCond c) = false) :
    run_closes db c calls = (List.replicate calls.length false, db) := by
  induction calls with
  | nil => simp [run_closes]
  | cons hd tl ih =>
    obtain ⟨r, n⟩ := hd
    simp only [run_closes, close_ticket_of_no_open db c r n h]
    simp [ih, List.replicate_succ]

/-- Over any sequence of closes on one channel, rows already closed are
carried through verbatim. -/
theorem run_closes_preserves_closed (c : String)
    (calls : List (Option String × Int)) :
    ∀ (db : TicketDatabase) (t : Ticket), t ∈ db.tickets →
      t.status = "closed" → t ∈ (run_closes db c calls).2.tickets := by
  induction calls with
  | nil =>
    intro db t ht _
    simpa [run_closes] using ht
  | cons hd tl ih =>
    intro db t ht hc
    obtain ⟨r, n⟩ := hd
    simp only [run_closes]
    exact ih _ t (close_preserves_closed_mem db c r n t ht hc) hc

end Helpers

/-- C1: `close_ticket(channelId, reason)` returns true iff an open ticket with
that channelId exists; a successful close rewrites the matched row with
status='closed', closed_at=now and close_reason=reason; an unsuccessful close
leaves the store unchanged; over every sequence of close calls on the same
channel at most one call returns true, and rows that are already closed are
never modified again (so closed_at is set exactly once, by the one successful
call). -/
theorem close_ticket_spec (db : TicketDatabase) (c : String)
    (r : Option String) (n : Int) :
    ((close_ticket db c r n).1 = true ↔
      ∃ t ∈ db.tickets, t.channel_id = c ∧ t.status = "open")
  ∧ ((close_ticket db c r n).1 = true →
      ∀ t ∈ db.tickets, t.channel_id = c → t.status = "open" →
        { t with status := "closed", closed_at := some n, close_reason := r }
          ∈ (close_ticket db c r n).2.tickets)
  ∧ ((close_ticket db c r n).1 = false → (close_ticket db c r n).2 = db)
  ∧ (∀ calls : List (Option String × Int),
      ((run_closes db c calls).1.count true) ≤ 1)
  ∧ (∀ calls : List (Option String × Int), ∀ t ∈ db.tickets,
      t.status = "closed" → t ∈ (run_closes db c calls).2.tickets) := by
  refine ⟨?_, ?_, ?_, ?_, ?_⟩
  · show db.tickets.any (closeCond c) = true ↔ _
    rw [List.any_eq_true]
    constructor
    · rintro ⟨t, ht, hcond⟩
      simp only [closeCond, Bool.and_eq_true, beq_iff_eq] at hcond
      exact ⟨t, ht, hcond.1, hcond.2⟩
    · rintro ⟨t, ht, hch, hst⟩
      exact ⟨t, ht, by simp [closeCond, hch, hst]⟩
  · intro _ t ht hch hst
    have hcond : closeCond c t = true := by simp [closeCond, hch, hst]
    have := List.mem_map_of_mem (closeUpd c r n) ht
    rw [closeUpd, if_pos hcond] at this
    exact this
  · intro h
    have h' : db.tickets.any (closeCond c) = false := h
    have := close_ticket_of_no_open db c r n h'
    exact congrArg Prod.snd this
  · intro calls
    cases calls with
    | nil => simp [run_closes]
    | cons hd tl =>
      obtain ⟨r₀, n₀⟩ := hd
      have hafter := any_closeCond_after_close db c r₀ n₀
      simp [run_closes, run_closes_of_no_open _ c tl hafter,
        List.count_cons, List.count_replicate]
      split <;> simp
  · intro calls t ht hc
    exact run_closes_preserves_closed c calls db t ht hc

/-- C1 witness: on a store with one open ticket for channel c1, a close
succeeds, the closed row is written, and a two-call close sequence succeeds at
most once. -/
theorem close_ticket_spec_witness :
    (close_ticket dbOpen "c1" none 7).1 = true
  ∧ sampleClosed ∈ (close_ticket dbOpen "c1" none 7).2.tickets
  ∧ (run_closes dbOpen "c1" [(none, 7), (none, 8)]).1.count true ≤ 1 := by
  obtain ⟨h1, h2, _, h4, _⟩ := close_ticket_spec dbOpen "c1" none 7
  have hs : (close_ticket dbOpen "c1" none 7).1 = true :=
    h1.mpr ⟨sampleOpen, by decide, by decide, by decide⟩
  exact ⟨hs, h2 hs sampleOpen (by decide) (by decide) (by decide),
    h4 [(none, 7), (none, 8)]⟩

section ClaimHelpers

/-- Under the schema's UNIQUE(channel_id), two rows with one channel id are
the same row. -/
theorem uniq_mem_list (l : List Ticket)
    (h : l.Pairwise (fun a b => a.channel_id ≠ b.channel_id)) :
    ∀ a ∈ l, ∀ b ∈ l, a.channel_id = b.channel_id → a = b := by
  induction l with
  | nil => simp
  | cons x xs ih =>
    rcases List.pairwise_cons.mp h with ⟨hx, hxs⟩
    intro a ha b hb hch
    rcases List.mem_cons.mp ha with rfl | ha' <;>
      rcases List.mem_cons.mp hb with rfl | hb'
    · rfl
    · exact absurd hch (hx b hb')
    · exact absurd hch.symm (hx a ha')
    · exact ih hxs a ha' b hb' hch

/-- `claimUpd` does not move a row between channels. -/
theorem claimUpd_channel (c u : String) (n : Int) (t : Ticket) :
    (claimUpd c u n t).channel_id = t.channel_id := by
  unfold claimUpd
  split <;> rfl

/-- A row just written by `claimUpd` never matches the claim WHERE clause. -/
theorem claimCond_claimUpd (c u : String) (n : Int) (t : Ticket) :
    claimCond c (claimUpd c u n t) = false := by
  by_cases h : claimCond c t = true
  · rw [claimUpd, if_pos h]
    simp [claimCond]
  · rw [claimUpd, if_neg h]
    simpa using h

/-- `claim_ticket` either fails outright at the fetch-then-check, or its
result is the conditional UPDATE's rowcount and effect. -/
theorem claim_ticket_cases (db : TicketDatabase) (c u : String) (n : Int) :
    claim_ticket db c u n = (false, db)
  ∨ ((claim_ticket db c u n).1 = db.tickets.any (claimCond c)
     ∧ (claim_ticket db c u n).2 =
        { db with tickets := db.tickets.map (claimUpd c u n) }) := by
  cases hg : get_ticket_by_channel db c with
  | none => exact Or.inl (by simp [claim_ticket, hg])
  | some t =>
    by_cases hpre : (t.status != "open" || claimedByTruthy t.claimed_by) = true
    · exact Or.inl (by simp [claim_ticket, hg, hpre])
    · exact Or.inr (by rw [Bool.not_eq_true] at hpre; simp [claim_ticket, hg, hpre])

/-- If no row matches the claim WHERE clause, the UPDATE body is the
identity. -/
theorem claim_map_id (db : TicketDatabase) (c u : String) (n : Int)
    (h : db.tickets.any (claimCond c) = false) :
    db.tickets.map (claimUpd c u n) = db.tickets := by
  rw [List.any_eq_false] at h
  have hid : ∀ t ∈ db.tickets, claimUpd c u n t = id t := by
    intro t ht
    have ht' := h t ht
    simp only [Bool.not_eq_true] at ht'
    simp [claimUpd, ht']
  rw [List.map_congr_left hid, List.map_id]

/-- If no row matches the claim WHERE clause, `claim_ticket` returns false and
leaves the state unchanged. -/
theorem claim_ticket_of_no_claimable (db : TicketDatabase) (c u : String)
    (n : Int) (h : db.tickets.any (claimCond c) = false) :
    claim_ticket db c u n = (false, db) := by
  rcases claim_ticket_cases db c u n with hdone | ⟨h1, h2⟩
  · exact hdone
  · have hfst : (claim_ticket db c u n).1 = false := by rw [h1, h]
    have hsnd : (claim_ticket db c u n).2 = db := by
      rw [h2, claim_map_id db c u n h, ticketdb_eta db db.tickets rfl]
    calc claim_ticket db c u n
        = ((claim_ticket db c u n).1, (claim_ticket db c u n).2) := rfl
      _ = (false, db) := by rw [hfst, hsnd]

/-- A failed claim leaves the state unchanged. -/
theorem claim_ticket_false_frame (db : TicketDatabase) (c u : String)
    (n : Int) (h : (claim_ticket db c u n).1 = false) :
    (claim_ticket db c u n).2 = db := by
  rcases claim_ticket_cases db c u n with hdone | ⟨h1, h2⟩
  · rw [hdone]
  · rw [h1] at h
    rw [h2, claim_map_id db c u n h, ticketdb_eta db db.tickets rfl]

/-- After a successful claim, no row matches the claim WHERE clause. -/
theorem any_claimCond_after_claim (db : TicketDatabase) (c u : String)
    (n : Int) (h : (claim_ticket db c u n).1 = true) :
    (claim_ticket db c u n).2.tickets.any (claimCond c) = false := by
  rcases claim_ticket_cases db c u n with hdone | ⟨_, h2⟩
  · rw [hdone] at h
    exact absurd h (by simp)
  · rw [h2]
    show (db.tickets.map (claimUpd c u n)).any (claimCond c) = false
    rw [List.any_map, List.any_eq_false]
    intro t _
    simp [Function.comp, claimCond_claimUpd]

/-- On a state with no claimable row for the channel, every claim in a
sequence fails and the state never moves. -/
theorem run_claims_of_no_claimable (db : TicketDatabase) (c : String)
    (calls : List (String × Int))
    (h : db.tickets.any (claimCond c) = false) :
    run_claims db c calls = (List.replicate calls.length false, db) := by
  induction calls with
  | nil => simp [run_claims]
  | cons hd tl ih =>
    obtain ⟨u, n⟩ := hd
    simp only [run_claims, claim_ticket_of_no_claimable db c u n h]
    simp [ih, List.replicate_succ]

/-- Once the first row of a channel is claimed, later claim calls on that
channel fail and change nothing (UNIQUE(channel_id) holding). -/
theorem claim_on_taken (db : TicketDatabase) (c : String) (t : Ticket)
    (u v : String) (m : Int) (hU : UniqueChannels db)
    (hg : get_ticket_by_channel db c = some t)
    (hcb : t.claimed_by = some u) :
    claim_ticket db c v m = (false, db) := by
  have hany : db.tickets.any (claimCond c) = false := by
    rw [List.any_eq_false]
    intro s hs hcond
    simp only [claimCond, Bool.and_eq_true, beq_iff_eq,
      Option.isNone_iff_eq_none] at hcond
    have htmem : t ∈ db.tickets := List.mem_of_find?_eq_some hg
    have htch : t.channel_id = c := by
      have := List.find?_some hg
      simpa [beq_iff_eq] using this
    have : s = t :=
      uniq_mem_list db.tickets hU s hs t htmem (hcond.1.1.trans htch.symm)
    rw [this, hcb] at hcond
    exact absurd hcond.2 (by simp)
  exact claim_ticket_of_no_claimable db c v m hany

/-- A channel-preserving rewrite of the rows preserves UNIQUE(channel_id). -/
theorem uniq_map_preserve (db : TicketDatabase) (f : Ticket → Ticket)
    (hf : ∀ t, (f t).channel_id = t.channel_id) (hU : UniqueChannels db) :
    (db.tickets.map f).Pairwise (fun a b => a.channel_id ≠ b.channel_id) := by
  rw [List.pairwise_map]
  exact hU.imp (by intro a b hab; simpa [hf] using hab)

/-- A claim sequence on an already-claimed channel returns all-false and
leaves the state unchanged. -/
theorem run_claims_taken (db : TicketDatabase) (c : String) (t : Ticket)
    (u : String) (calls : List (String × Int)) (hU : UniqueChannels db)
    (hg : get_ticket_by_channel db c = some t)
    (hcb : t.claimed_by = some u) :
    run_claims db c calls = (List.replicate calls.length false, db) := by
  induction calls with
  | nil => simp [run_claims]
  | cons hd tl ih =>
    obtain ⟨v, m⟩ := hd
    simp only [run_claims, claim_on_taken db c t u v m hU hg hcb]
    simp [ih, List.replicate_succ]

/-- The exact shape of a successful claim: result true, rows rewritten by
`claimUpd`, and the fetched row now carrying the claimer. -/
theorem claim_success_shape (db : TicketDatabase) (c u : String) (n : Int)
    (t : Ticket) (hg : get_ticket_by_channel db c = some t)
    (hst : t.status = "open") (hcb : t.claimed_by = none) :
    (claim_ticket db c u n).1 = true
  ∧ (claim_ticket db c u n).2 =
      { db with tickets := db.tickets.map (claimUpd c u n) }
  ∧ get_ticket_by_channel (claim_ticket db c u n).2 c =
      some { t with claimed_by := some u, claimed_at := some n } := by
  have htch : t.channel_id = c := by
    have := List.find?_some hg
    simpa [beq_iff_eq] using this
  have hpre : (t.status != "open" || claimedByTruthy t.claimed_by) = false := by
    simp [hst, hcb, claimedByTruthy]
  have hcond : claimCond c t = true := by
    simp [claimCond, htch, hst, hcb]
  have hany : db.tickets.any (claimCond c) = true := by
    rw [List.any_eq_true]
    exact ⟨t, List.mem_of_find?_eq_some hg, hcond⟩
  have hshape : claim_ticket db c u n =
      (db.tickets.any (claimCond c),
       { db with tickets := db.tickets.map (claimUpd c u n) }) := by
    rw [Bool.eq_false_iff] at hpre
    simp [claim_ticket, hg, hpre]
  refine ⟨by rw [hshape, hany], by rw [hshape], ?_⟩
  rw [hshape]
  show (db.tickets.map (claimUpd c u n)).find?
    (fun s => s.channel_id == c) = _
  rw [List.find?_map]
  have hpf : ((fun s : Ticket => s.channel_id == c) ∘ claimUpd c u n)
      = (fun s : Ticket => s.channel_id == c) := by
    funext s
    simp [Function.comp, claimUpd_channel]
  have hg' : db.tickets.find? (fun s => s.channel_id == c) = some t := hg
  rw [hpf, hg']
  show some (claimUpd c u n t) = _
  rw [claimUpd, if_pos hcond]

end ClaimHelpers

/-- C2: under the schema's UNIQUE(channel_id), `claim_ticket(channelId,
userId)` returns true iff a ticket with that channelId exists, is open, and
has claimed_by null; a successful claim writes claimed_by=userId and
claimed_at=now; a failed claim leaves the store unchanged; over every
sequence of claim calls on one channel at most one call returns true; and
starting from an open unclaimed ticket, the first call wins and afterwards
claimed_by holds exactly that call's userId. -/
theorem claim_ticket_spec :
    (∀ (db : TicketDatabase) (c u : String) (n : Int), UniqueChannels db →
      ((claim_ticket db c u n).1 = true ↔
        ∃ t ∈ db.tickets, t.channel_id = c ∧ t.status = "open" ∧
          t.claimed_by = none))
  ∧ (∀ (db : TicketDatabase) (c u : String) (n : Int) (t : Ticket),
      get_ticket_by_channel db c = some t → t.status = "open" →
      t.claimed_by = none →
      (claim_ticket db c u n).1 = true ∧
      get_ticket_by_channel (claim_ticket db c u n).2 c =
        some { t with claimed_by := some u, claimed_at := some n })
  ∧ (∀ (db : TicketDatabase) (c u : String) (n : Int),
      (claim_ticket db c u n).1 = false → (claim_ticket db c u n).2 = db)
  ∧ (∀ (db : TicketDatabase) (c : String) (calls : List (String × Int)),
      ((run_claims db c calls).1.count true) ≤ 1)
  ∧ (∀ (db : TicketDatabase) (c : String) (t : Ticket) (u : String) (n : Int)
      (rest : List (String × Int)), UniqueChannels db →
      get_ticket_by_channel db c = some t → t.status = "open" →
      t.claimed_by = none →
      (run_claims db c ((u, n) :: rest)).1
        = true :: List.replicate rest.length false
      ∧ get_ticket_by_channel (run_claims db c ((u, n) :: rest)).2 c =
          some { t with claimed_by := some u, claimed_at := some n }) := by
  refine ⟨?_, ?_, ?_, ?_, ?_⟩
  · intro db c u n hU
    constructor
    · intro h
      rcases claim_ticket_cases db c u n with hdone | ⟨h1, _⟩
      · rw [hdone] at h
        exact absurd h (by simp)
      · rw [h1, List.any_eq_true] at h
        rcases h with ⟨s, hs, hcond⟩
        simp only [claimCond, Bool.and_eq_true, beq_iff_eq,
          Option.isNone_iff_eq_none] at hcond
        exact ⟨s, hs, hcond.1.1, hcond.1.2, hcond.2⟩
    · rintro ⟨t', hmem, hch, hst, hcb⟩
      cases hg : get_ticket_by_channel db c with
      | none =>
        rw [get_ticket_by_channel, List.find?_eq_none] at hg
        exact absurd (by simpa [beq_iff_eq] using hg t' hmem) (by simp [hch])
      | some t₀ =>
        have ht₀mem : t₀ ∈ db.tickets := List.mem_of_find?_eq_some hg
        have ht₀ch : t₀.channel_id = c := by
          have := List.find?_some hg
          simpa [beq_iff_eq] using this
        have : t₀ = t' :=
          uniq_mem_list db.tickets hU t₀ ht₀mem t' hmem (ht₀ch.trans hch.symm)
        subst this
        exact (claim_success_shape db c u n t₀ hg hst hcb).1
  · intro db c u n t hg hst hcb
    have h := claim_success_shape db c u n t hg hst hcb
    exact ⟨h.1, h.2.2⟩
  · intro db c u n h
    exact claim_ticket_false_frame db c u n h
  · intro db c calls
    induction calls generalizing db with
    | nil => simp [run_claims]
    | cons hd tl ih =>
      obtain ⟨u, n⟩ := hd
      cases hb : (claim_ticket db c u n).1 with
      | true =>
        have hafter := any_claimCond_after_claim db c u n hb
        simp [run_claims, hb,
          run_claims_of_no_claimable _ c tl hafter, List.count_cons,
          List.count_replicate]
      | false =>
        have hframe := claim_ticket_false_frame db c u n hb
        simp only [run_claims, hb, hframe]
        simpa [List.count_cons] using ih db
  · intro db c t u n rest hU hg hst hcb
    have h := claim_success_shape db c u n t hg hst hcb
    have hU' : UniqueChannels (claim_ticket db c u n).2 := by
      show (claim_ticket db c u n).2.tickets.Pairwise _
      rw [h.2.1]
      exact uniq_map_preserve db (claimUpd c u n) (claimUpd_channel c u n) hU
    have htail := run_claims_taken (claim_ticket db c u n).2 c
      { t with claimed_by := some u, claimed_at := some n } u rest hU'
      h.2.2 rfl
    constructor
    · show (claim_ticket db c u n).1 ::
        (run_claims (claim_ticket db c u n).2 c rest).1 = _
      rw [h.1, htail]
    · show get_ticket_by_channel
        (run_claims (claim_ticket db c u n).2 c rest).2 c = _
      rw [htail]
      exact h.2.2

/-- C2 witness: on a store with one open unclaimed ticket, the first claim by
s1 wins, a later claim by s2 fails, and claimed_by records s1. -/
theorem claim_ticket_spec_witness :
    (claim_ticket dbOpen "c1" "s1" 3).1 = true
  ∧ get_ticket_by_channel (claim_ticket dbOpen "c1" "s1" 3).2 "c1"
      = some sampleClaimed
  ∧ (run_claims dbOpen "c1" [("s1", 3), ("s2", 4)]).1 = [true, false]
  ∧ get_ticket_by_channel
      (run_claims dbOpen "c1" [("s1", 3), ("s2", 4)]).2 "c1"
      = some sampleClaimed := by
  obtain ⟨_, h2, _, _, h5⟩ := claim_ticket_spec
  have hb := h2 dbOpen "c1" "s1" 3 sampleOpen (by decide) (by decide)
    (by decide)
  have he := h5 dbOpen "c1" sampleOpen "s1" 3 [("s2", 4)]
    (by simp [UniqueChannels, dbOpen]) (by decide) (by decide) (by decide)
  exact ⟨hb.1, hb.2, by rw [he.1]; rfl, he.2⟩

/-- C3 counterexample: on a store whose only ticket is open and unclaimed,
`unclaim_ticket` returns true — not false as the claim states — because its
UPDATE's WHERE clause checks only `channel_id` and `status = 'open'`, and the
matched row counts toward rowcount even though setting NULL over NULL changes
nothing. -/
theorem unclaim_ticket_open_unclaimed_cex :
    get_ticket_by_channel dbOpen "c1" = some sampleOpen
  ∧ sampleOpen.status = "open"
  ∧ sampleOpen.claimed_by = none
  ∧ (unclaim_ticket dbOpen "c1").1 = true := by decide

/-- A record whose claimed fields are already null is unchanged by clearing
them. -/
theorem clear_claim_of_unclaimed (t : Ticket) (h1 : t.claimed_by = none)
    (h2 : t.claimed_at = none) :
    ({ t with claimed_by := none, claimed_at := none } : Ticket) = t := by
  cases t
  simp_all

/-- C3 (amended): `unclaim_ticket` returns true iff a ticket with that
channelId exists with status 'open', whether or not it is claimed; on every
open matched row it clears claimed_by and claimed_at; when it returns false
(ticket absent or closed) the store is unchanged; and on an open unclaimed
ticket it leaves the store unchanged but still returns true (not false). -/
theorem unclaim_ticket_spec (db : TicketDatabase) (c : String) :
    ((unclaim_ticket db c).1 = true ↔
      ∃ t ∈ db.tickets, t.channel_id = c ∧ t.status = "open")
  ∧ (∀ t ∈ db.tickets, t.channel_id = c → t.status = "open" →
      { t with claimed_by := none, claimed_at := none }
        ∈ (unclaim_ticket db c).2.tickets)
  ∧ ((unclaim_ticket db c).1 = false → (unclaim_ticket db c).2 = db)
  ∧ (∀ t : Ticket, UniqueChannels db → get_ticket_by_channel db c = some t →
      t.status = "open" → t.claimed_by = none → t.claimed_at = none →
      (unclaim_ticket db c).1 = true ∧ (unclaim_ticket db c).2 = db) := by
  refine ⟨?_, ?_, ?_, ?_⟩
  · show db.tickets.any (closeCond c) = true ↔ _
    rw [List.any_eq_true]
    constructor
    · rintro ⟨t, ht, hcond⟩
      simp only [closeCond, Bool.and_eq_true, beq_iff_eq] at hcond
      exact ⟨t, ht, hcond.1, hcond.2⟩
    · rintro ⟨t, ht, hch, hst⟩
      exact ⟨t, ht, by simp [closeCond, hch, hst]⟩
  · intro t ht hch hst
    have hcond : closeCond c t = true := by simp [closeCond, hch, hst]
    have := List.mem_map_of_mem (unclaimUpd c) ht
    rw [unclaimUpd, if_pos hcond] at this
    exact this
  · intro h
    have h' : db.tickets.any (closeCond c) = false := h
    rw [List.any_eq_false] at h'
    have hmap : db.tickets.map (unclaimUpd c) = db.tickets := by
      have hid : ∀ t ∈ db.tickets, unclaimUpd c t = id t := by
        intro t ht
        have ht' := h' t ht
        simp only [Bool.not_eq_true] at ht'
        simp [unclaimUpd, ht']
      rw [List.map_congr_left hid, List.map_id]
    show ({ db with tickets := db.tickets.map (unclaimUpd c) }
      : TicketDatabase) = db
    rw [hmap, ticketdb_eta db db.tickets rfl]
  · intro t hU hg hst hcb hca
    have htmem : t ∈ db.tickets := List.mem_of_find?_eq_some hg
    have htch : t.channel_id = c := by
      have := List.find?_some hg
      simpa [beq_iff_eq] using this
    constructor
    · show db.tickets.any (closeCond c) = true
      rw [List.any_eq_true]
      exact ⟨t, htmem, by simp [closeCond, htch, hst]⟩
    · have hmap : db.tickets.map (unclaimUpd c) = db.tickets := by
        have hid : ∀ s ∈ db.tickets, unclaimUpd c s = id s := by
          intro s hs
          by_cases hcond : closeCond c s = true
          · have hsch : s.channel_id = c := by
              simp only [closeCond, Bool.and_eq_true, beq_iff_eq] at hcond
              exact hcond.1
            have : s = t :=
              uniq_mem_list db.tickets hU s hs t htmem (hsch.trans htch.symm)
            subst this
            show unclaimUpd c s = s
            rw [unclaimUpd, if_pos hcond]
            exact clear_claim_of_unclaimed s hcb hca
          · simp only [Bool.not_eq_true] at hcond
            simp [unclaimUpd, hcond]
        rw [List.map_congr_left hid, List.map_id]
      show ({ db with tickets := db.tickets.map (unclaimUpd c) }
        : TicketDatabase) = db
      rw [hmap, ticketdb_eta db db.tickets rfl]

/-- C3 witness: on a claimed open ticket the unclaim succeeds and clears both
claimed fields; on an open unclaimed ticket it is a store no-op returning
true. -/
theorem unclaim_ticket_spec_witness :
    (unclaim_ticket dbClaimed "c1").1 = true
  ∧ sampleOpen ∈ (unclaim_ticket dbClaimed "c1").2.tickets
  ∧ (unclaim_ticket dbOpen "c1").1 = true
  ∧ (unclaim_ticket dbOpen "c1").2 = dbOpen := by
  obtain ⟨h1, h2, _, _⟩ := unclaim_ticket_spec dbClaimed "c1"
  obtain ⟨_, _, _, h4⟩ := unclaim_ticket_spec dbOpen "c1"
  have hmem := h2 sampleClaimed (by decide) (by decide) (by decide)
  have hnoop := h4 sampleOpen (by simp [UniqueChannels, dbOpen]) (by decide)
    (by decide) (by decide) (by decide)
  exact ⟨h1.mpr ⟨sampleClaimed, by decide, by decide, by decide⟩, hmem,
    hnoop.1, hnoop.2⟩

/-- `closeUpd` does not move a row between channels. -/
theorem closeUpd_channel (c : String) (r : Option String) (n : Int)
    (t : Ticket) : (closeUpd c r n t).channel_id = t.channel_id := by
  unfold closeUpd
  split <;> rfl

/-- `unclaimUpd` does not move a row between channels. -/
theorem unclaimUpd_channel (c : String) (t : Ticket) :
    (unclaimUpd c t).channel_id = t.channel_id := by
  unfold unclaimUpd
  split <;> rfl

/-- Looking a channel up after a channel-preserving row rewrite finds the
rewritten image of the row found before. -/
theorem find?_channel_map (l : List Ticket) (f : Ticket → Ticket) (c : String)
    (hf : ∀ s, (f s).channel_id = s.channel_id) :
    (l.map f).find? (fun s => s.channel_id == c)
      = (l.find? (fun s => s.channel_id == c)).map f := by
  rw [List.find?_map]
  have hpf : ((fun s : Ticket => s.channel_id == c) ∘ f)
      = (fun s : Ticket => s.channel_id == c) := by
    funext s
    simp [Function.comp, hf]
  rw [hpf]

/-- C4: a closed ticket is terminal.  Every store operation — create, close,
claim, unclaim, and the guild-config writes — leaves a closed ticket's record
(in particular its status and closed_at) exactly as it was, and a close call
on an already-closed ticket returns false and leaves the whole store
unchanged. -/
theorem closed_terminal :
    (∀ (op : StoreOp) (db : TicketDatabase) (c : String) (t : Ticket),
      get_ticket_by_channel db c = some t → t.status = "closed" →
      get_ticket_by_channel (applyOp op db) c = some t)
  ∧ (∀ (db : TicketDatabase) (c : String) (t : Ticket) (r : Option String)
      (n : Int), UniqueChannels db → get_ticket_by_channel db c = some t →
      t.status = "closed" → close_ticket db c r n = (false, db)) := by
  constructor
  · intro op db c t hg hst
    cases op with
    | create c' u' n' =>
      cases hcr : create_ticket db c' u' n' with
      | none => simpa [applyOp, hcr] using hg
      | some p =>
        obtain ⟨tid, db'⟩ := p
        simp only [applyOp, hcr]
        simp only [create_ticket] at hcr
        split at hcr
        · exact absurd hcr (by simp)
        · rw [Option.some.injEq, Prod.mk.injEq] at hcr
          obtain ⟨-, hdb⟩ := hcr
          subst hdb
          show (db.tickets ++ [_]).find? (fun s => s.channel_id == c) = some t
          rw [List.find?_append]
          have hg' : db.tickets.find? (fun s => s.channel_id == c) = some t :=
            hg
          rw [hg']
          rfl
    | close c' r' n' =>
      show (db.tickets.map (closeUpd c' r' n')).find?
        (fun s => s.channel_id == c) = some t
      rw [find?_channel_map db.tickets _ c (closeUpd_channel c' r' n')]
      have hg' : db.tickets.find? (fun s => s.channel_id == c) = some t := hg
      rw [hg']
      have : closeUpd c' r' n' t = t := by
        have : closeCond c' t = false := by simp [closeCond, hst]
        simp [closeUpd, this]
      simp [this]
    | claim c' u' n' =>
      rcases claim_ticket_cases db c' u' n' with hdone | ⟨_, h2⟩
      · show get_ticket_by_channel (claim_ticket db c' u' n').2 c = some t
        rw [hdone]
        exact hg
      · show get_ticket_by_channel (claim_ticket db c' u' n').2 c = some t
        rw [h2]
        show (db.tickets.map (claimUpd c' u' n')).find?
          (fun s => s.channel_id == c) = some t
        rw [find?_channel_map db.tickets _ c (claimUpd_channel c' u' n')]
        have hg' : db.tickets.find? (fun s => s.channel_id == c) = some t := hg
        rw [hg']
        have : claimUpd c' u' n' t = t := by
          have : claimCond c' t = false := by simp [claimCond, hst]
          simp [claimUpd, this]
        simp [this]
    | unclaim c' =>
      show (db.tickets.map (unclaimUpd c')).find?
        (fun s => s.channel_id == c) = some t
      rw [find?_channel_map db.tickets _ c (unclaimUpd_channel c')]
      have hg' : db.tickets.find? (fun s => s.channel_id == c) = some t := hg
      rw [hg']
      have : unclaimUpd c' t = t := by
        have : closeCond c' t = false := by simp [closeCond, hst]
        simp [unclaimUpd, this]
      simp [this]
    | saveConfig cfg => exact hg
    | deleteConfig g => exact hg
  · intro db c t r n hU hg hst
    have htmem : t ∈ db.tickets := List.mem_of_find?_eq_some hg
    have htch : t.channel_id = c := by
      have := List.find?_some hg
      simpa [beq_iff_eq] using this
    have hany : db.tickets.any (closeCond c) = false := by
      rw [List.any_eq_false]
      intro s hs hcond
      simp only [closeCond, Bool.and_eq_true, beq_iff_eq] at hcond
      have : s = t :=
        uniq_mem_list db.tickets hU s hs t htmem (hcond.1.trans htch.symm)
      rw [this, hst] at hcond
      exact absurd hcond.2 (by decide)
    exact close_ticket_of_no_open db c r n hany

/-- C4 witness: on a store with one closed ticket, a claim attempt leaves the
record as it was and a second close returns false with the store unchanged. -/
theorem closed_terminal_witness :
    get_ticket_by_channel (applyOp (.claim "c1" "s2" 9) dbClosed) "c1"
      = some sampleClosed
  ∧ close_ticket dbClosed "c1" none 9 = (false, dbClosed) := by
  obtain ⟨h1, h2⟩ := closed_terminal
  exact ⟨h1 (.claim "c1" "s2" 9) dbClosed "c1" sampleClosed (by decide)
      (by decide),
    h2 dbClosed "c1" sampleClosed none 9 (by simp [UniqueChannels, dbClosed])
      (by decide) (by decide)⟩

/-- C5 counterexample: `create_ticket` does not always succeed — called a
second time with the same channelId it hits the schema's UNIQUE(channel_id)
and raises `sqlite3.IntegrityError` (embedded: returns `none`) instead of
creating a second record. -/
theorem create_ticket_duplicate_channel_cex :
    create_ticket initDatabase "c1" "u1" 0 = some (1, dbOpen)
  ∧ create_ticket dbOpen "c1" "u1" 1 = none := by decide

/-- C5 (amended): `create_ticket` succeeds exactly when no existing ticket
carries that channelId — there is no per-user duplicate check — assigning the
next sequential ticket_id and writing status='open', created_at=now; two
calls with the same userId and distinct fresh channelIds both succeed and
create two records with distinct ticket_ids; a second call with the same
channelId fails (UNIQUE constraint) instead of succeeding. -/
theorem create_ticket_spec (db : TicketDatabase) (c u : String) (n : Int) :
    ((∀ t ∈ db.tickets, t.channel_id ≠ c) →
      create_ticket db c u n = some (db.next_id,
        { db with tickets := db.tickets ++ [newTicket db.next_id c u n],
                  next_id := db.next_id + 1 }))
  ∧ ((∃ t ∈ db.tickets, t.channel_id = c) → create_ticket db c u n = none)
  ∧ (∀ (c₂ : String) (n₂ : Int), c ≠ c₂ →
      (∀ t ∈ db.tickets, t.channel_id ≠ c ∧ t.channel_id ≠ c₂) →
      ∃ db1 db2, create_ticket db c u n = some (db.next_id, db1)
        ∧ create_ticket db1 c₂ u n₂ = some (db.next_id + 1, db2)
        ∧ get_ticket_by_channel db2 c = some (newTicket db.next_id c u n)
        ∧ get_ticket_by_channel db2 c₂
            = some (newTicket (db.next_id + 1) c₂ u n₂)
        ∧ (newTicket db.next_id c u n).ticket_id
            ≠ (newTicket (db.next_id + 1) c₂ u n₂).ticket_id) := by
  have hfresh_any : ∀ (c' : String), (∀ t ∈ db.tickets, t.channel_id ≠ c') →
      db.tickets.any (fun t => t.channel_id == c') = false := by
    intro c' hf
    rw [List.any_eq_false]
    intro t ht
    simpa [beq_iff_eq] using hf t ht
  refine ⟨?_, ?_, ?_⟩
  · intro hf
    simp [create_ticket, hfresh_any c hf]
  · rintro ⟨t, ht, hch⟩
    have hany : db.tickets.any (fun s => s.channel_id == c) = true := by
      rw [List.any_eq_true]
      exact ⟨t, ht, by simp [hch]⟩
    simp [create_ticket, hany]
  · intro c₂ n₂ hne hf
    have h1 := hfresh_any c (fun t ht => (hf t ht).1)
    have e1 : create_ticket db c u n = some (db.next_id,
        { db with tickets := db.tickets ++ [newTicket db.next_id c u n],
                  next_id := db.next_id + 1 }) := by
      simp [create_ticket, h1]
    have h2 : (db.tickets ++ [newTicket db.next_id c u n]).any
        (fun t => t.channel_id == c₂) = false := by
      rw [List.any_eq_false]
      intro t ht
      rcases List.mem_append.mp ht with hold | hnew
      · simpa [beq_iff_eq] using (hf t hold).2
      · rw [List.mem_singleton.mp hnew]
        simpa [newTicket, beq_iff_eq] using hne
    have e2 : create_ticket
        { db with tickets := db.tickets ++ [newTicket db.next_id c u n],
                  next_id := db.next_id + 1 } c₂ u n₂
        = some (db.next_id + 1,
          { db with
            tickets := (db.tickets ++ [newTicket db.next_id c u n])
              ++ [newTicket (db.next_id + 1) c₂ u n₂],
            next_id := db.next_id + 1 + 1 }) := by
      simp [create_ticket, h2]
    refine ⟨_, _, e1, e2, ?_, ?_, by simp [newTicket]⟩
    · show ((db.tickets ++ [newTicket db.next_id c u n])
        ++ [newTicket (db.next_id + 1) c₂ u n₂]).find?
          (fun s => s.channel_id == c) = _
      have hnone : db.tickets.find? (fun s => s.channel_id == c) = none := by
        rw [List.find?_eq_none]
        intro t ht
        simpa [beq_iff_eq] using (hf t ht).1
      rw [List.find?_append, List.find?_append, hnone]
      simp [List.find?, newTicket]
    · show ((db.tickets ++ [newTicket db.next_id c u n])
        ++ [newTicket (db.next_id + 1) c₂ u n₂]).find?
          (fun s => s.channel_id == c₂) = _
      have hnone : db.tickets.find? (fun s => s.channel_id == c₂) = none := by
        rw [List.find?_eq_none]
        intro t ht
        simpa [beq_iff_eq] using (hf t ht).2
      rw [List.find?_append, List.find?_append, hnone]
      have hcc : (c == c₂) = false := beq_eq_false_iff_ne.mpr hne
      simp [List.find?, newTicket, hcc]

/-- C5 witness: from a fresh store, creating with channel a then channel b for
the same user succeeds twice with sequential distinct ids. -/
theorem create_ticket_spec_witness :
    ∃ db1 db2,
      create_ticket initDatabase "a" "u1" 0 = some (initDatabase.next_id, db1)
    ∧ create_ticket db1 "b" "u1" 2 = some (initDatabase.next_id + 1, db2)
    ∧ get_ticket_by_channel db2 "a"
        = some (newTicket initDatabase.next_id "a" "u1" 0)
    ∧ get_ticket_by_channel db2 "b"
        = some (newTicket (initDatabase.next_id + 1) "b" "u1" 2)
    ∧ (newTicket initDatabase.next_id "a" "u1" 0).ticket_id
        ≠ (newTicket (initDatabase.next_id + 1) "b" "u1" 2).ticket_id :=
  (create_ticket_spec initDatabase "a" "u1" 0).2.2 "b" 2 (by decide)
    (by decide)

/-- Closing a channel removes exactly that channel's rows from a user's open
tickets and leaves the other open rows as they were. -/
theorem filter_open_after_close (l : List Ticket) (c u : String)
    (r : Option String) (n : Int) :
    (l.map (closeUpd c r n)).filter
      (fun t => t.user_id == u && t.status == "open")
    = (l.filter (fun t => t.user_id == u && t.status == "open")).filter
        (fun t => t.channel_id != c) := by
  induction l with
  | nil => rfl
  | cons a tl ih =>
    simp only [List.map_cons]
    by_cases hc : closeCond c a = true
    · obtain ⟨hch, hst⟩ :
          (a.channel_id == c) = true ∧ (a.status == "open") = true := by
        simpa [closeCond, Bool.and_eq_true] using hc
      have hU : closeUpd c r n a =
          { a with status := "closed", closed_at := some n,
                   close_reason := r } := by
        rw [closeUpd, if_pos hc]
      have hco : (("closed" : String) == "open") = false := by decide
      have hbne : (a.channel_id != c) = false := by simp [bne, hch]
      rw [hU]
      by_cases hu : (a.user_id == u) = true
      · simp [List.filter_cons, hco, hu, hst, hbne, ih]
      · rw [Bool.not_eq_true] at hu
        simp [List.filter_cons, hco, hu, ih]
    · have hU : closeUpd c r n a = a := by rw [closeUpd, if_neg hc]
      rw [hU]
      by_cases hk : (a.user_id == u && a.status == "open") = true
      · have hst : (a.status == "open") = true := by
          have := hk
          simp only [Bool.and_eq_true] at this
          exact this.2
        have hch : (a.channel_id == c) = false := by
          cases hcc : (a.channel_id == c) with
          | false => rfl
          | true => exact absurd (by simp [closeCond, hcc, hst]) hc
        simp [List.filter_cons, hk, hch, ih, bne]
      · rw [Bool.not_eq_true] at hk
        simp [List.filter_cons, hk, ih]

/-- C6: the Controller's create flow refuses a user who already has an open
ticket, leaving the store untouched; closing a channel removes it from the
user's open tickets (so closing every open ticket empties the list); and once
the user's open list is empty, a create request with a provisioned fresh
channel is accepted and writes a new open ticket. -/
theorem controller_create_flow :
    (∀ (db : TicketDatabase) (u : String) (g : Bool) (prov : Option String)
      (now : Int), get_user_tickets db u (some "open") ≠ [] →
      handle_ticket_button db u g prov now = (.alreadyOpen, db))
  ∧ (∀ (db : TicketDatabase) (u c : String) (r : Option String) (now : Int),
      get_user_tickets (close_ticket db c r now).2 u (some "open")
        = (get_user_tickets db u (some "open")).filter
            (fun t => t.channel_id != c))
  ∧ (∀ (db : TicketDatabase) (u ch : String) (now : Int),
      get_user_tickets db u (some "open") = [] →
      (∀ t ∈ db.tickets, t.channel_id ≠ ch) →
      (handle_ticket_button db u true (some ch) now).1 = .created db.next_id
      ∧ get_ticket_by_channel
          (handle_ticket_button db u true (some ch) now).2 ch
          = some (newTicket db.next_id ch u now)) := by
  refine ⟨?_, ?_, ?_⟩
  · intro db u g prov now hne
    have hisEmpty : (get_user_tickets db u (some "open")).isEmpty = false := by
      cases hl : get_user_tickets db u (some "open") with
      | nil => exact absurd hl hne
      | cons x xs => rfl
    simp [handle_ticket_button, hisEmpty]
  · intro db u c r now
    exact filter_open_after_close db.tickets c u r now
  · intro db u ch now hemp hfresh
    have hisEmpty : (get_user_tickets db u (some "open")).isEmpty = true := by
      rw [hemp]
      rfl
    have hany : db.tickets.any (fun t => t.channel_id == ch) = false := by
      rw [List.any_eq_false]
      intro t ht
      simpa [beq_iff_eq] using hfresh t ht
    have hcr : create_ticket db ch u now = some (db.next_id,
        { db with tickets := db.tickets ++ [newTicket db.next_id ch u now],
                  next_id := db.next_id + 1 }) := by
      simp [create_ticket, hany]
    constructor
    · simp [handle_ticket_button, hisEmpty, hcr]
    · simp only [handle_ticket_button, hisEmpty, hcr]
      show (db.tickets ++ [newTicket db.next_id ch u now]).find?
        (fun s => s.channel_id == ch) = _
      have hnone : db.tickets.find? (fun s => s.channel_id == ch) = none := by
        rw [List.find?_eq_none]
        intro t ht
        simpa [beq_iff_eq] using hfresh t ht
      rw [List.find?_append, hnone]
      simp [List.find?, newTicket]

/-- C6 witness: the user with the open ticket in dbOpen is refused; after the
ticket is closed (dbClosed), the same user's next request creates ticket 2. -/
theorem controller_create_flow_witness :
    handle_ticket_button dbOpen "u1" true (some "c9") 5 = (.alreadyOpen, dbOpen)
  ∧ (handle_ticket_button dbClosed "u1" true (some "c9") 5).1 = .created 2
  ∧ get_ticket_by_channel
      (handle_ticket_button dbClosed "u1" true (some "c9") 5).2 "c9"
      = some (newTicket 2 "c9" "u1" 5) := by
  obtain ⟨h1, _, h3⟩ := controller_create_flow
  have ha := h1 dbOpen "u1" true (some "c9") 5 (by decide)
  have hb := h3 dbClosed "u1" "c9" 5 (by decide) (by decide)
  exact ⟨ha, hb.1, hb.2⟩

/-- C7: when channel provisioning fails (the platform call raises before any
store write is attempted), the Controller's create flow leaves the store
exactly as it was and reports no created ticket — channel creation strictly
precedes the store write in `handle_ticket_button`. -/
theorem provision_failure_leaves_store (db : TicketDatabase) (u : String)
    (g : Bool) (now : Int) :
    (handle_ticket_button db u g none now).2 = db
  ∧ ∀ tid : Nat, (handle_ticket_button db u g none now).1
      ≠ CreateResult.created tid := by
  cases hemp : (get_user_tickets db u (some "open")).isEmpty <;>
    cases g <;> simp [handle_ticket_button, hemp]

/-- C8: `close_ticket` touches only status, closed_at and close_reason: it
keeps the row count and, position by position, leaves ticket_id, channel_id,
user_id, created_at, claimed_by and claimed_at unchanged — so a ticket that
was claimed when closed still records its last claimer. -/
theorem close_ticket_frame (db : TicketDatabase) (c : String)
    (r : Option String) (n : Int) :
    (close_ticket db c r n).2.tickets.length = db.tickets.length
  ∧ ∀ (i : Nat) (h1 : i < db.tickets.length)
      (h2 : i < (close_ticket db c r n).2.tickets.length),
      ((close_ticket db c r n).2.tickets.get ⟨i, h2⟩).ticket_id
          = (db.tickets.get ⟨i, h1⟩).ticket_id
    ∧ ((close_ticket db c r n).2.tickets.get ⟨i, h2⟩).channel_id
          = (db.tickets.get ⟨i, h1⟩).channel_id
    ∧ ((close_ticket db c r n).2.tickets.get ⟨i, h2⟩).user_id
          = (db.tickets.get ⟨i, h1⟩).user_id
    ∧ ((close_ticket db c r n).2.tickets.get ⟨i, h2⟩).created_at
          = (db.tickets.get ⟨i, h1⟩).created_at
    ∧ ((close_ticket db c r n).2.tickets.get ⟨i, h2⟩).claimed_by
          = (db.tickets.get ⟨i, h1⟩).claimed_by
    ∧ ((close_ticket db c r n).2.tickets.get ⟨i, h2⟩).claimed_at
          = (db.tickets.get ⟨i, h1⟩).claimed_at := by
  constructor
  · show (db.tickets.map (closeUpd c r n)).length = _
    exact List.length_map _ _
  · intro i h1 h2
    have hget : (close_ticket db c r n).2.tickets.get ⟨i, h2⟩
        = closeUpd c r n (db.tickets.get ⟨i, h1⟩) := by
      show (db.tickets.map (closeUpd c r n)).get ⟨i, h2⟩ = _
      simp [List.get_eq_getElem]
    rw [hget]
    have hframe : ∀ s : Ticket, (closeUpd c r n s).ticket_id = s.ticket_id
        ∧ (closeUpd c r n s).channel_id = s.channel_id
        ∧ (closeUpd c r n s).user_id = s.user_id
        ∧ (closeUpd c r n s).created_at = s.created_at
        ∧ (closeUpd c r n s).claimed_by = s.claimed_by
        ∧ (closeUpd c r n s).claimed_at = s.claimed_at := by
      intro s
      unfold closeUpd
      split <;> simp
    exact hframe _

/-- C8 witness: closing the claimed ticket in dbClaimed keeps its claimer and
claim time on the record. -/
theorem close_ticket_frame_witness :
    ((close_ticket dbClaimed "c1" (some "done") 9).2.tickets.get
        ⟨0, by decide⟩).claimed_by = some "s1"
  ∧ ((close_ticket dbClaimed "c1" (some "done") 9).2.tickets.get
        ⟨0, by decide⟩).claimed_at = some 3 := by
  have h := (close_ticket_frame dbClaimed "c1" (some "done") 9).2 0 (by decide)
    (by decide)
  exact ⟨h.2.2.2.2.1.trans (by decide), h.2.2.2.2.2.trans (by decide)⟩

/-- C9: `get_tickets_by_period(days)` counts exactly the tickets with
created_at at least now − days (total, and likewise the open and closed
splits); in the spec's scenario — one ticket created two days ago, one
created now — days=1 yields total=1, excluding the older ticket. -/
theorem get_tickets_by_period_spec :
    (∀ (db : TicketDatabase) (days now : Int),
      (get_tickets_by_period db days now).total
        = db.tickets.countP (fun t => decide (now - days ≤ t.created_at))
      ∧ (get_tickets_by_period db days now).open_count
        = db.tickets.countP (fun t =>
            decide (now - days ≤ t.created_at) && t.status == "open")
      ∧ (get_tickets_by_period db days now).closed_count
        = db.tickets.countP (fun t =>
            decide (now - days ≤ t.created_at) && t.status == "closed"))
  ∧ (∀ db1 db2 : TicketDatabase,
      create_ticket initDatabase "old" "u1" 0 = some (1, db1) →
      create_ticket db1 "new" "u2" 2 = some (2, db2) →
      get_tickets_by_period db2 1 2
        = { total := 1, open_count := 1, closed_count := 0 }) := by
  constructor
  · intro db days now
    refine ⟨?_, ?_, ?_⟩ <;>
      exact (List.countP_eq_length_filter _ _).symm
  · intro db1 db2 h1 h2
    rw [show create_ticket initDatabase "old" "u1" 0
        = some (1, dbPeriod1) from by decide] at h1
    simp only [Option.some.injEq, Prod.mk.injEq, true_and] at h1
    subst h1
    rw [show create_ticket dbPeriod1 "new" "u2" 2
        = some (2, dbPeriod2) from by decide] at h2
    simp only [Option.some.injEq, Prod.mk.injEq, true_and] at h2
    subst h2
    decide

/-- C9 witness: the period query on the two-ticket store built by the two
creates returns total=1 for days=1 at time 2. -/
theorem get_tickets_by_period_spec_witness :
    get_tickets_by_period dbPeriod2 1 2
      = { total := 1, open_count := 1, closed_count := 0 } :=
  get_tickets_by_period_spec.2 dbPeriod1 dbPeriod2 (by decide) (by decide)

/-- `claimUpd` never changes a row's status. -/
theorem claimUpd_status (c u : String) (n : Int) (t : Ticket) :
    (claimUpd c u n t).status = t.status := by
  unfold claimUpd
  split <;> rfl

/-- `unclaimUpd` never changes a row's status. -/
theorem unclaimUpd_status (c : String) (t : Ticket) :
    (unclaimUpd c t).status = t.status := by
  unfold unclaimUpd
  split <;> rfl

/-- Every reachable state only holds rows with status 'open' or 'closed'. -/
theorem reachable_wf (db : TicketDatabase) (h : Reachable db) : WFStatus db := by
  induction h with
  | init => intro t ht; exact absurd ht (List.not_mem_nil t)
  | step op db hdb ih =>
    cases op with
    | create c u n =>
      cases hcr : create_ticket db c u n with
      | none => simpa [applyOp, hcr] using ih
      | some p =>
        obtain ⟨tid, db'⟩ := p
        simp only [applyOp, hcr]
        simp only [create_ticket] at hcr
        split at hcr
        · exact absurd hcr (by simp)
        · rw [Option.some.injEq, Prod.mk.injEq] at hcr
          obtain ⟨-, hdb'⟩ := hcr
          subst hdb'
          intro t ht
          rcases List.mem_append.mp ht with hold | hnew
          · exact ih t hold
          · rw [List.mem_singleton.mp hnew]
            exact Or.inl rfl
    | close c r n =>
      intro t ht
      rcases List.mem_map.mp ht with ⟨s, hs, hfs⟩
      by_cases hcond : closeCond c s = true
      · rw [← hfs, closeUpd, if_pos hcond]
        exact Or.inr rfl
      · rw [← hfs, closeUpd, if_neg hcond]
        exact ih s hs
    | claim c u n =>
      rcases claim_ticket_cases db c u n with hdone | ⟨-, h2⟩
      · intro t ht
        rw [show applyOp (.claim c u n) db = (claim_ticket db c u n).2
            from rfl, hdone] at ht
        exact ih t ht
      · intro t ht
        rw [show applyOp (.claim c u n) db = (claim_ticket db c u n).2
            from rfl, h2] at ht
        rcases List.mem_map.mp ht with ⟨s, hs, hfs⟩
        rw [← hfs]
        rw [show (claimUpd c u n s).status = s.status
            from claimUpd_status c u n s]
        exact ih s hs
    | unclaim c =>
      intro t ht
      rcases List.mem_map.mp ht with ⟨s, hs, hfs⟩
      rw [← hfs,
        show (unclaimUpd c s).status = s.status from unclaimUpd_status c s]
      exact ih s hs
    | saveConfig cfg => exact ih
    | deleteConfig g => exact ih

/-- Splitting a filtered count along an exclusive, covering pair of
predicates. -/
theorem filter_length_split (l : List Ticket) (r p q : Ticket → Bool)
    (h1 : ∀ t ∈ l, r t = (p t || q t))
    (h2 : ∀ t ∈ l, ¬(p t = true ∧ q t = true)) :
    (l.filter r).length = (l.filter p).length + (l.filter q).length := by
  induction l with
  | nil => rfl
  | cons a tl ih =>
    have ha := h1 a (List.mem_cons_self a tl)
    have hb := h2 a (List.mem_cons_self a tl)
    have ihtl := ih (fun t ht => h1 t (List.mem_cons_of_mem a ht))
      (fun t ht => h2 t (List.mem_cons_of_mem a ht))
    cases hp : p a <;> cases hq : q a <;>
      rw [hp, hq] at ha
    · simp [List.filter_cons, hp, hq, ha, ihtl]
    · simp [List.filter_cons, hp, hq, ha, ihtl]
      omega
    · simp [List.filter_cons, hp, hq, ha, ihtl]
      omega
    · exact absurd ⟨hp, hq⟩ hb

/-- C10: in every state reachable by the store's own operations, the
statistics are consistent: total = open + closed, and open = claimed +
unclaimed. -/
theorem statistics_consistent (db : TicketDatabase) (h : Reachable db) :
    (get_ticket_statistics db).total
      = (get_ticket_statistics db).open_count
        + (get_ticket_statistics db).closed_count
  ∧ (get_ticket_statistics db).open_count
      = (get_ticket_statistics db).claimed_count
        + (get_ticket_statistics db).unclaimed_count := by
  have hwf := reachable_wf db h
  constructor
  · show db.tickets.length = _
    have hsplit := filter_length_split db.tickets (fun _ => true)
      (fun t => t.status == "open") (fun t => t.status == "closed")
      (fun t ht => by
        rcases hwf t ht with hopen | hclosed
        · simp [hopen]
        · simp [hclosed])
      (fun t ht => by
        rintro ⟨hp, hq⟩
        rw [beq_iff_eq] at hp hq
        exact absurd (hp.symm.trans hq) (by decide))
    rw [List.filter_true] at hsplit
    exact hsplit
  · show (db.tickets.filter (fun t => t.status == "open")).length = _
    exact filter_length_split db.tickets
      (fun t => t.status == "open")
      (fun t => t.status == "open" && t.claimed_by.isSome)
      (fun t => t.status == "open" && t.claimed_by.isNone)
      (fun t _ => by
        cases hcb : t.claimed_by <;> cases hst : t.status == "open" <;>
          simp [hcb, hst])
      (fun t _ => by
        rintro ⟨hp, hq⟩
        rw [Bool.and_eq_true] at hp hq
        cases hcb : t.claimed_by with
        | none => rw [hcb] at hp; exact absurd hp.2 (by simp)
        | some v => rw [hcb] at hq; exact absurd hq.2 (by simp))

/-- C10 witness: the invariant holds at the reachable state with one freshly
created ticket. -/
theorem statistics_consistent_witness :
    (get_ticket_statistics (applyOp (.create "c1" "u1" 0) initDatabase)).total
      = (get_ticket_statistics
          (applyOp (.create "c1" "u1" 0) initDatabase)).open_count
        + (get_ticket_statistics
            (applyOp (.create "c1" "u1" 0) initDatabase)).closed_count
  ∧ (get_ticket_statistics
        (applyOp (.create "c1" "u1" 0) initDatabase)).open_count
      = (get_ticket_statistics
          (applyOp (.create "c1" "u1" 0) initDatabase)).claimed_count
        + (get_ticket_statistics
            (applyOp (.create "c1" "u1" 0) initDatabase)).unclaimed_count :=
  statistics_consistent (applyOp (.create "c1" "u1" 0) initDatabase)
    (Reachable.step (.create "c1" "u1" 0) initDatabase Reachable.init)

end AetherTickets
